import Mathlib

/-!
Verification development for the Sekiro Archipelago world (richarm4/sekiro-apworld).

This file gives a shallow embedding of the item/location catalog (Items.py,
Locations.py), the options model (Options.py), and the placement routines of
SekiroWorld (create_region, create_items helpers, fill_local_item,
replace_with_filler, add_allow_useful_location_rules, is_location_available),
and proves properties of them.

Modelling conventions:
  - Python sets of location names are modelled as lists of strings; all
    statements about them are membership statements, so duplicates and order
    are irrelevant.
  - The per-world random generator is modelled as a stream of natural-number
    draws (a list of naturals).  random.choice over a sequence of length n
    consumes one draw k and selects index k % n; random.sample without
    replacement repeatedly draws an index into the remaining list.  The
    distribution of the draws themselves is the contract of the host RNG and
    is outside the embedding; what the embedding captures is that every
    random decision is a pure function of the draw stream.
  - Item acceptance rules (location.item_rule) are represented by a small
    rule language covering exactly the rules this world constructs: the
    always-true default rule and conjunctions with the
    "no advancement items" rule added for allow-useful locations.
  - Metadata fields never read by any modelled operation (ap codes, static
    keys, region values, spoiler text, and so on) are omitted.
-/

namespace Sekiro

/-- BaseClasses.ItemClassification, restricted to the values the catalog
uses.  `advancement` is true exactly for progression items. -/
inductive ItemClassification where
  | filler
  | progression
  | useful
  deriving DecidableEq, Repr

def ItemClassification.advancement : ItemClassification → Bool
  | .progression => true
  | _ => false

/-- Items.py: SekiroItemCategory. -/
inductive SekiroItemCategory where
  | MISC
  | UNIQUE
  | UPGRADE
  deriving DecidableEq, Repr

/-- Items.py: SekiroItemData (the fields read by the modelled operations). -/
structure SekiroItemData where
  name : String
  category : SekiroItemCategory
  classification : ItemClassification := .filler
  count : Nat := 1
  inject : Bool := false
  filler : Bool := false
  skip : Bool := false
  deriving DecidableEq, Repr

/-- Items.py: SekiroItemData.unique, derived from the category. -/
def SekiroItemData.unique (d : SekiroItemData) : Bool :=
  !(d.category == .MISC || d.category == .UPGRADE)

/-- Items.py: SekiroItem.event builds a skip progression item carrying the
location name. -/
def SekiroItemData.eventItem (name : String) : SekiroItemData :=
  { name := name, category := .MISC, skip := true, classification := .progression }

/-- Locations.py: SekiroLocationData (the fields read by the modelled
operations).  `default_item_name = none` marks an event location. -/
structure SekiroLocationData where
  name : String
  default_item_name : Option String
  missable : Bool := false
  npc : Bool := false
  conditional : Bool := false
  deriving DecidableEq, Repr

/-- Locations.py: SekiroLocationData.is_event. -/
def SekiroLocationData.is_event (d : SekiroLocationData) : Bool :=
  d.default_item_name.isNone

/-- Options.py: the three values shared by ExcludedLocationBehaviorOption and
MissableLocationBehaviorOption. -/
inductive LocationBehavior where
  | allow_useful
  | forbid_useful
  | do_not_randomize
  deriving DecidableEq, Repr

/-- The numeric option values from Options.py (allow_useful = 1,
forbid_useful = 2, do_not_randomize = 3); Choice options compare by value. -/
def LocationBehavior.value : LocationBehavior → Nat
  | .allow_useful => 1
  | .forbid_useful => 2
  | .do_not_randomize => 3

/-- `a < b` on Choice options compares the numeric values. -/
def LocationBehavior.blt (a b : LocationBehavior) : Bool :=
  a.value < b.value

/-- Options.py: SekiroOptions (the fields read by the modelled operations).
`exclude_locations` and `priority_locations` are the mutable option sets. -/
structure SekiroOptions where
  exclude_locations : List String
  priority_locations : List String := []
  excluded_location_behavior : LocationBehavior
  missable_location_behavior : LocationBehavior
  deriving DecidableEq, Repr

/-! ## The catalog (Items.py `_vanilla_items`, Locations.py `location_tables`) -/

/-- Items.py: `_vanilla_items`, in source order. -/
def vanillaItems : List SekiroItemData := [
  { name := "Aromatic Branch", category := .UNIQUE, classification := .progression },
  { name := "Divine Dragon\'s Tears", category := .UNIQUE, classification := .progression },
  { name := "Father\'s Bell Charm", category := .UNIQUE, classification := .progression },
  { name := "Gatehouse Key", category := .UNIQUE, classification := .progression },
  { name := "Gun Fort Shrine Key", category := .UNIQUE, classification := .progression },
  { name := "Hidden Temple Key", category := .UNIQUE, classification := .progression },
  { name := "Lotus of the Palace", category := .UNIQUE, classification := .progression },
  { name := "Mibu Breathing Technique", category := .UNIQUE, classification := .progression },
  { name := "Mist Raven\'s Feathers", category := .UNIQUE, classification := .progression },
  { name := "Mortal Blade", category := .UNIQUE, classification := .progression },
  { name := "Puppeteer Ninjutsu", category := .UNIQUE, classification := .progression },
  { name := "Secret Passage Key", category := .UNIQUE, classification := .progression },
  { name := "Shelter Stone", category := .UNIQUE, classification := .progression },
  { name := "Shinobi Prosthetic", category := .UNIQUE, classification := .progression },
  { name := "Young Lord\'s Bell Charm", category := .UNIQUE, classification := .progression },
  { name := "Memory: Genichiro", category := .UNIQUE, classification := .useful },
  { name := "Memory: Saint Isshin", category := .UNIQUE, classification := .useful },
  { name := "Gachiin\'s Sugar", category := .MISC, filler := true }]

/-- Items.py: `item_dictionary[name]`, as an optional lookup (Python raises
KeyError when the name is absent). -/
def lookupItem (name : String) : Option SekiroItemData :=
  vanillaItems.find? (fun d => d.name == name)

/-- Items.py: `filler_item_names` resolved through the item dictionary
(`get_filler_item_name` chooses a name and `create_item` immediately looks it
back up, so we keep the item data directly). -/
def fillerItems : List SekiroItemData :=
  vanillaItems.filter (fun d => d.filler)

/-- Locations.py: `location_tables`.  Regions absent from the table map to []
(Python would raise KeyError; no modelled call site uses an unknown region). -/
def location_tables : String → List SekiroLocationData
  | "Dilapidated Temple" =>
      [{ name := "Shinobi Prosthetic - arrive at DT",
         default_item_name := some "Shinobi Prosthetic" }]
  | "Ashina Outskirts" =>
      [{ name := "AO: Young Lord\'s Bell Charm - speak to Inosuke Nogami\'s mother",
         default_item_name := some "Young Lord\'s Bell Charm" }]
  | "Ashina Reservoir Ending" =>
      [{ name := "ARE - Memory: Saint Isshin",
         default_item_name := some "Memory: Saint Isshin" }]
  | "Ashina Castle" =>
      [{ name := "AC: Gatehouse Key - dropped by enemy on bridge leading to Abandoned Dungeon entrance",
         default_item_name := some "Gatehouse Key" },
       { name := "AC: Memory: Genichiro",
         default_item_name := some "Memory: Genichiro" },
       { name := "Gun Fort Shrine Key - speak to Kuro",
         default_item_name := some "Gun Fort Shrine Key" }]
  | "Ashina Castle after Interior Ministry" =>
      [{ name := "DT: Father\'s Bell Charm - Emma questline",
         default_item_name := some "Father\'s Bell Charm" },
       { name := "ACIM: Aromatic Branch - second AC memory boss",
         default_item_name := some "Aromatic Branch" }]
  | "Ashina Castle after Central Forces" =>
      [{ name := "ACCF: Secret Passage Key - speak to Emma",
         default_item_name := some "Secret Passage Key" }]
  | "Hirata Estate" =>
      [{ name := "HE1: Mist Raven\'s Feathers - down the river from Bamboo Thicket Slope",
         default_item_name := some "Mist Raven\'s Feathers" },
       { name := "HE1: Hidden Temple Key - Owl after Bamboo Thicket Slope",
         default_item_name := some "Hidden Temple Key" }]
  | "Senpou Temple Inner Sanctum" =>
      [{ name := "STIS: Puppeteer Ninjutsu - STIS memory boss",
         default_item_name := some "Puppeteer Ninjutsu" },
       { name := "STIS: Mortal Blade",
         default_item_name := some "Mortal Blade" }]
  | "Sunken Valley Passage" =>
      [{ name := "SVP: Lotus of the Palace - after SVP memory boss",
         default_item_name := some "Lotus of the Palace" }]
  | "Mibu Village" =>
      [{ name := "MV: Mibu Breathing Technique - kill MV memory boss",
         default_item_name := some "Mibu Breathing Technique" },
       { name := "MV: Shelter Stone - after MV memory boss",
         default_item_name := some "Shelter Stone" }]
  | "Fountainhead Palace" =>
      [{ name := "FP: Divine Dragon\'s Tears",
         default_item_name := some "Divine Dragon\'s Tears" }]
  | _ => []

/-- The region names that carry locations (the remaining regions of
`create_regions` have empty tables). -/
def regionNames : List String :=
  ["Dilapidated Temple", "Ashina Outskirts", "Ashina Reservoir Ending",
   "Ashina Castle", "Ashina Castle after Interior Ministry",
   "Ashina Castle after Central Forces", "Hirata Estate",
   "Senpou Temple Inner Sanctum", "Sunken Valley Passage", "Mibu Village",
   "Fountainhead Palace"]

/-- Locations.py: `location_dictionary`, as an optional lookup over all
location tables. -/
def location_dictionary (name : String) : Option SekiroLocationData :=
  (regionNames.flatMap location_tables).find? (fun d => d.name == name)

/-! ## Item rules, built locations, availability -/

/-- The item-acceptance rules this world constructs: the Archipelago default
rule (always true) and conjunctions with the rule
`lambda item: not item.advancement` added by
`_add_allow_useful_location_rules`. -/
inductive ItemRule where
  | top
  | notAdvancement
  | and (a b : ItemRule)
  deriving DecidableEq, Repr

def evalRule : ItemRule → SekiroItemData → Bool
  | .top, _ => true
  | .notAdvancement, it => !it.classification.advancement
  | .and a b, it => evalRule a it && evalRule b it

/-- BaseClasses.LocationProgressType, restricted to the values this world
assigns. -/
inductive ProgressType where
  | default
  | excluded
  deriving DecidableEq, Repr

/-- A SekiroLocation instance as built into the multiworld: its catalog data,
its current item (if any), whether that item is locked, its accumulated item
rule and its progress type. -/
structure BuiltLocation where
  data : SekiroLocationData
  item : Option SekiroItemData := none
  locked : Bool := false
  itemRule : ItemRule := .top
  progressType : ProgressType := .default
  deriving DecidableEq, Repr

/-- SekiroWorld._is_location_available on resolved location data: the
location is being randomized iff it is not an event, and not
(excluded behavior is do_not_randomize and its name is in
all_excluded_locations), and not (missable behavior is do_not_randomize and
it is missable). -/
def is_location_available (opts : SekiroOptions) (allExcluded : List String)
    (data : SekiroLocationData) : Bool :=
  !data.is_event
  && !(opts.excluded_location_behavior == .do_not_randomize
       && allExcluded.contains data.name)
  && !(opts.missable_location_behavior == .do_not_randomize && data.missable)

/-- The three argument forms `_is_location_available` accepts: a location
name, a SekiroLocationData, or a SekiroLocation. -/
inductive LocationRef where
  | byName (s : String)
  | byData (d : SekiroLocationData)
  | byLocation (l : BuiltLocation)

/-- The dispatch at the top of `_is_location_available`: a name is resolved
through `location_dictionary` (KeyError for unknown names, hence Option), a
SekiroLocation contributes its `.data`, and data is used as is. -/
def resolveLocation : LocationRef → Option SekiroLocationData
  | .byName s => location_dictionary s
  | .byData d => some d
  | .byLocation l => some l.data

/-- SekiroWorld._is_location_available with its argument dispatch. -/
def is_location_available_ref (opts : SekiroOptions) (allExcluded : List String)
    (ref : LocationRef) : Option Bool :=
  (resolveLocation ref).map (is_location_available opts allExcluded)

/-! ## create_region: the per-location step -/

/-- `create_region`: the event item placed on a non-randomized location is the
catalog item of its default item name, or a pure event marker for event
locations.  (For a non-event location whose default item is missing from the
catalog, Python `create_item` would raise KeyError; the event-marker fallback
in that branch is unreachable for catalog locations.) -/
def eventItemFor (ld : SekiroLocationData) : SekiroItemData :=
  match ld.default_item_name with
  | some n => (lookupItem n).getD (SekiroItemData.eventItem ld.name)
  | none => SekiroItemData.eventItem ld.name

/-- The body of the `for location in location_table` loop of
`SekiroWorld.create_region`, acting on one catalog location.  Inputs: the
options, the mutable option set `excluded = options.exclude_locations.value`,
and the world set `all_excluded_locations`.  Output: the built location and
the two updated sets.  (Python removes set members with `set.remove`, which
is `List.erase` here; every modelled statement about removal carries the
membership hypothesis under which the two agree.) -/
def create_region_step (opts : SekiroOptions)
    (excluded allExcluded : List String) (ld : SekiroLocationData) :
    BuiltLocation × List String × List String :=
  if is_location_available opts allExcluded ld then
    let progress : ProgressType :=
      if ld.missable && opts.missable_location_behavior == .forbid_useful
         && !(allExcluded.contains ld.name
              && opts.missable_location_behavior.blt opts.excluded_location_behavior)
      then .excluded else .default
    ({ data := ld, progressType := progress }, excluded, allExcluded)
  else
    let built : BuiltLocation :=
      { data := ld, item := some (eventItemFor ld), locked := true }
    if excluded.contains ld.name then
      let excluded' := excluded.erase ld.name
      let allExcluded' :=
        if !(opts.missable_location_behavior.blt opts.excluded_location_behavior)
        then allExcluded.erase ld.name
        else allExcluded
      (built, excluded', allExcluded')
    else
      (built, excluded, allExcluded)

/-! ## World state and the random stream -/

/-- One draw from the per-world random stream. -/
def drawNat (rng : List Nat) : Nat × List Nat := (rng.headD 0, rng.tail)

/-- `random.choice(seq)` driven by one draw k: index k modulo the length. -/
def choiceD {α : Type} (l : List α) (dflt : α) (k : Nat) : α :=
  l.getD (k % l.length) dflt

/-- The parts of the world / multiworld state the modelled routines read and
write: the options, `all_excluded_locations`, this world\'s built locations
(in creation order, as returned by `_get_our_locations`), `local_itempool`,
the names pushed precollected (starting inventory), the warnings emitted so
far, and the per-world random stream. -/
structure WorldState where
  opts : SekiroOptions
  allExcluded : List String
  locations : List BuiltLocation
  localItempool : List SekiroItemData
  precollected : List String := []
  warnings : List String := []
  rng : List Nat
  deriving DecidableEq, Repr

/-- `multiworld.get_location(name, player)` restricted to this world. -/
def getLocationByName (st : WorldState) (name : String) : Option BuiltLocation :=
  st.locations.find? (fun l => l.data.name == name)

/-- Update the (unique) built location with the given name. -/
def updateFirst : List BuiltLocation → String → (BuiltLocation → BuiltLocation) →
    List BuiltLocation
  | [], _, _ => []
  | l :: rest, name, f =>
      if l.data.name == name then f l :: rest
      else l :: updateFirst rest name f

/-- `location.place_locked_item(item)`: store the item and lock the slot. -/
def placeLockedItem (l : BuiltLocation) (item : SekiroItemData) : BuiltLocation :=
  { l with item := some item, locked := true }

/-! ## _replace_with_filler -/

def unusedItem : SekiroItemData := SekiroItemData.eventItem "unused"

/-- `self.create_filler()`: draw a filler item from the random stream
(`get_filler_item_name` is `random.choice(filler_item_names)` and
`create_item` resolves the name through the catalog). -/
def drawFiller (rng : List Nat) : SekiroItemData × List Nat :=
  (choiceD fillerItems unusedItem (rng.headD 0), rng.tail)

/-- The `for _ in range(0, 10)` loop of `_replace_with_filler`: draw a filler
candidate, install it and stop if the location\'s item rule accepts it,
otherwise retry until the attempt budget is exhausted. -/
def replaceWithFillerGo : Nat → BuiltLocation → List Nat → BuiltLocation × List Nat
  | 0, loc, rng => (loc, rng)
  | fuel + 1, loc, rng =>
      let (cand, rng') := drawFiller rng
      if evalRule loc.itemRule cand then ({ loc with item := some cand }, rng')
      else replaceWithFillerGo fuel loc rng'

/-- SekiroWorld._replace_with_filler: a no-op on locked locations, otherwise
up to 10 bounded retries. -/
def replace_with_filler (loc : BuiltLocation) (rng : List Nat) :
    BuiltLocation × List Nat :=
  if loc.locked then (loc, rng) else replaceWithFillerGo 10 loc rng

/-- The index (0-based, among the draws made) and value of the first filler
draw accepted by the rule within the given attempt budget. -/
def firstAcceptedFiller (rule : ItemRule) (rng : List Nat) :
    Nat → Option (Nat × SekiroItemData)
  | 0 => none
  | fuel + 1 =>
      let (cand, rng') := drawFiller rng
      if evalRule rule cand then some (0, cand)
      else (firstAcceptedFiller rule rng' fuel).map (fun p => (p.1 + 1, p.2))

/-! ## _fill_local_item -/

/-- The warning of the empty-candidates branch of `_fill_local_item`
(the player name is not part of the modelled state). -/
def placeItemWarning (name : String) : String :=
  "Couldn\'t place \"" ++ name ++ "\" in a valid location. Adding it to starting inventory instead."

/-- The candidate location list of `_fill_local_item`: for each given region,
the catalog locations that are available, not missable, not conditional and
pass the additional condition (when given) are looked up in the multiworld,
and kept when they are unfilled, not in `all_excluded_locations`, and their
item rule accepts the item. -/
def candidate_locations (st : WorldState) (regions : List String)
    (cond : Option (SekiroLocationData → Bool)) (item : SekiroItemData) :
    List BuiltLocation :=
  ((regions.flatMap (fun r =>
      (location_tables r).filter (fun ld =>
        is_location_available st.opts st.allExcluded ld
        && !ld.missable
        && !ld.conditional
        && (match cond with | none => true | some f => f ld)))).filterMap
    (fun ld => getLocationByName st ld.name)).filter
    (fun loc => loc.item.isNone
      && !st.allExcluded.contains loc.data.name
      && evalRule loc.itemRule item)

def dummyLocation : BuiltLocation :=
  { data := { name := "", default_item_name := none } }

/-- SekiroWorld._fill_local_item.  The first pool item with the given name is
selected (if none, the call is a no-op).  The item is removed from the local
pool.  If some candidate qualifies, one is chosen by a draw from the random
stream and locked in place; otherwise a warning is emitted, a best-effort
filler swap is attempted at the first world location whose catalog default
item is this item, and the item is pushed precollected. -/
def fill_local_item (st : WorldState) (name : String) (regions : List String)
    (cond : Option (SekiroLocationData → Bool) := none) : WorldState :=
  match st.localItempool.find? (fun it => it.name == name) with
  | none => st
  | some item =>
    let candidates := candidate_locations st regions cond item
    let pool' := st.localItempool.erase item
    if candidates.isEmpty then
      let st1 := { st with
        localItempool := pool',
        warnings := st.warnings ++ [placeItemWarning name] }
      let st2 :=
        match st1.locations.find?
            (fun l => l.data.default_item_name == some item.name) with
        | none => st1
        | some target =>
          let (target', rng') := replace_with_filler target st1.rng
          { st1 with
            locations := updateFirst st1.locations target.data.name (fun _ => target'),
            rng := rng' }
      { st2 with precollected := st2.precollected ++ [name] }
    else
      let (k, rng') := drawNat st.rng
      let chosen := choiceD candidates dummyLocation k
      { st with
        localItempool := pool',
        locations := updateFirst st.locations chosen.data.name
          (fun l => placeLockedItem l item),
        rng := rng' }

/-! ## _create_injectable_items -/

/-- `random.sample(l, k)` without replacement, driven by the draw stream:
each step draws an index into the remaining list, removes the picked element
and recurses.  (Python asserts k is at most the population size; every
modelled call satisfies that bound.) -/
def sample {α : Type} : List α → Nat → List Nat → List α × List Nat
  | _, 0, rng => ([], rng)
  | [], _ + 1, rng => ([], rng)
  | x :: xs, k + 1, rng =>
      let i := (rng.headD 0) % (x :: xs).length
      let picked := (x :: xs).getD i x
      let rest := sample ((x :: xs).eraseIdx i) k rng.tail
      (picked :: rest.1, rest.2)

/-- The warning emitted when a mandatory injectable is pushed to starting
inventory (the player name is not part of the modelled state). -/
def injectWarning (name : String) : String :=
  "Couldn\'t add \"" ++ name ++ "\" to the item pool. Adding it to the starting inventory instead."

/-- The result of `_create_injectable_items`: the injected items, the
remaining random stream, and the names pushed precollected together with
their warnings. -/
structure InjectResult where
  items : List SekiroItemData
  rng : List Nat
  precollected : List String
  warnings : List String
  deriving DecidableEq, Repr

/-- `_create_injectable_items`: the catalog items flagged inject. -/
def allInjectable (catalog : List SekiroItemData) : List SekiroItemData :=
  catalog.filter (fun it => it.inject)

/-- `_create_injectable_items`: the progression-classified injectables. -/
def injectableMandatory (catalog : List SekiroItemData) : List SekiroItemData :=
  (allInjectable catalog).filter (fun it => it.classification == .progression)

/-- `_create_injectable_items`: the non-progression injectables. -/
def injectableOptional (catalog : List SekiroItemData) : List SekiroItemData :=
  (allInjectable catalog).filter (fun it => !(it.classification == .progression))

/-- `_create_injectable_items`: `number_to_inject = min(deficit, number of
injectables)`. -/
def injectQuota (catalog : List SekiroItemData) (deficit : Nat) : Nat :=
  min deficit (allInjectable catalog).length

/-- `_create_injectable_items`: the `items` selection together with the
remaining random stream — up to the quota from the mandatory injectables
first (sampled without replacement), then the remaining quota from the
optional injectables (`max(0, ...)` is truncated subtraction on Nat). -/
def injectSelected (catalog : List SekiroItemData) (deficit : Nat)
    (rng : List Nat) : List SekiroItemData × List Nat :=
  let s1 := sample (injectableMandatory catalog)
    (min (injectableMandatory catalog).length (injectQuota catalog deficit)) rng
  let s2 := sample (injectableOptional catalog)
    (injectQuota catalog deficit - (injectableMandatory catalog).length) s1.2
  (s1.1 ++ s2.1, s2.2)

/-- SekiroWorld._create_injectable_items, parameterized over the item catalog
(`item_dictionary.values()` in catalog order).  When the quota is below the
mandatory count, every unselected mandatory item is pushed precollected with
a warning. -/
def create_injectable_items (catalog : List SekiroItemData) (deficit : Nat)
    (rng : List Nat) : InjectResult :=
  let items := (injectSelected catalog deficit rng).1
  if injectQuota catalog deficit < (injectableMandatory catalog).length then
    let leftover :=
      (injectableMandatory catalog).filter (fun it => !(items.contains it))
    { items := items, rng := (injectSelected catalog deficit rng).2,
      precollected := leftover.map (fun it => it.name),
      warnings := leftover.map (fun it => injectWarning it.name) }
  else
    { items := items, rng := (injectSelected catalog deficit rng).2,
      precollected := [], warnings := [] }

/-! ## _add_allow_useful_location_rules -/

/-- The `allow_useful_locations` set of `_add_allow_useful_location_rules`:
when the excluded axis is allow_useful, the excluded locations (restricted to
non-missable ones when the excluded axis is strictly below the missable
axis, otherwise all of `all_excluded_locations`); united with, when the
missable axis is allow_useful, the missable locations that are not also
excluded under a strictly stricter excluded axis. -/
def allowUsefulLocations (st : WorldState) : List String :=
  (if st.opts.excluded_location_behavior == .allow_useful then
     (if st.opts.excluded_location_behavior.blt st.opts.missable_location_behavior
      then (st.locations.filter (fun l =>
              st.allExcluded.contains l.data.name && !l.data.missable)).map
              (fun l => l.data.name)
      else st.allExcluded)
   else [])
  ++
  (if st.opts.missable_location_behavior == .allow_useful then
     (st.locations.filter (fun l =>
        l.data.missable
        && !(st.allExcluded.contains l.data.name
             && st.opts.missable_location_behavior.blt
                  st.opts.excluded_location_behavior))).map (fun l => l.data.name)
   else [])

/-- `_add_item_rule(name, lambda item: not item.advancement)` as applied to
one built location: `_add_item_rule` first resolves the name against the
location dictionary and silently skips unavailable locations, otherwise it
conjoins the new rule onto the location\'s item rule.  The Python loop runs
over the name set and updates the unique matching multiworld location; since
distinct names update distinct locations, the loop is modelled as a pointwise
map over the built locations. -/
def addItemRuleUpdate (opts : SekiroOptions) (allExcluded : List String)
    (aus : List String) (l : BuiltLocation) : BuiltLocation :=
  if aus.contains l.data.name then
    match location_dictionary l.data.name with
    | some d =>
        if is_location_available opts allExcluded d then
          { l with itemRule := .and .notAdvancement l.itemRule }
        else l
    | none => l
  else l

/-- SekiroWorld._add_allow_useful_location_rules: add the no-advancement item
rule over the allow-useful set, subtract that set from the priority
locations, and clear the raw exclude_locations option when the excluded axis
is allow_useful. -/
def add_allow_useful_location_rules (st : WorldState) : WorldState :=
  let aus := allowUsefulLocations st
  { st with
    locations := st.locations.map (addItemRuleUpdate st.opts st.allExcluded aus),
    opts := { st.opts with
      priority_locations :=
        st.opts.priority_locations.filter (fun n => !aus.contains n),
      exclude_locations :=
        if st.opts.excluded_location_behavior == .allow_useful then []
        else st.opts.exclude_locations } }

/-! ## C1: _is_location_available -/

/-- C1: For every location (given as a name, a SekiroLocationData, or a
SekiroLocation), `_is_location_available` returns true iff the location is
not an event (its default_item_name is set), and not (excluded behavior is
do_not_randomize and its name is in all_excluded_locations), and not
(missable behavior is do_not_randomize and the location is missable). -/
theorem c1_is_location_available_iff (opts : SekiroOptions)
    (allExcluded : List String) (ref : LocationRef) (data : SekiroLocationData)
    (h : resolveLocation ref = some data) :
    is_location_available_ref opts allExcluded ref = some true ↔
      (data.default_item_name ≠ none
       ∧ ¬(opts.excluded_location_behavior = .do_not_randomize
           ∧ data.name ∈ allExcluded)
       ∧ ¬(opts.missable_location_behavior = .do_not_randomize
           ∧ data.missable = true)) := by
  simp only [is_location_available_ref, h, Option.map_some', Option.some_inj]
  simp [is_location_available, SekiroLocationData.is_event, not_and, and_assoc,
    Option.isSome_iff_ne_none, or_iff_not_imp_left]

/-- Witness for C1 at the catalog location "STIS: Mortal Blade". -/
theorem c1_witness :
    resolveLocation (.byName "STIS: Mortal Blade")
        = some { name := "STIS: Mortal Blade",
                 default_item_name := some "Mortal Blade" }
    ∧ (is_location_available_ref
          { exclude_locations := [],
            excluded_location_behavior := .forbid_useful,
            missable_location_behavior := .forbid_useful } []
          (.byName "STIS: Mortal Blade") = some true ↔
        (({ name := "STIS: Mortal Blade",
            default_item_name := some "Mortal Blade" } :
              SekiroLocationData).default_item_name ≠ none
         ∧ ¬(LocationBehavior.forbid_useful = .do_not_randomize
             ∧ "STIS: Mortal Blade" ∈ ([] : List String))
         ∧ ¬(LocationBehavior.forbid_useful = .do_not_randomize
             ∧ ({ name := "STIS: Mortal Blade",
                  default_item_name := some "Mortal Blade" } :
                     SekiroLocationData).missable = true))) :=
  ⟨by decide,
   c1_is_location_available_iff
     { exclude_locations := [],
       excluded_location_behavior := .forbid_useful,
       missable_location_behavior := .forbid_useful } []
     (.byName "STIS: Mortal Blade")
     { name := "STIS: Mortal Blade", default_item_name := some "Mortal Blade" }
     (by decide)⟩

/-! ## C10: _fill_local_item is a no-op when the item is not in the pool -/

/-- C10: When no item with the given name is in the local pool,
`_fill_local_item` returns immediately: no warning, no random draw, and the
local pool, every location, the exclusion set and the starting inventory are
unchanged (the whole world state, random stream included, is returned as
is). -/
theorem c10_fill_local_item_noop (st : WorldState) (name : String)
    (regions : List String) (cond : Option (SekiroLocationData → Bool))
    (h : st.localItempool.find? (fun it => it.name == name) = none) :
    fill_local_item st name regions cond = st := by
  unfold fill_local_item
  rw [h]

/-- Witness for C10: a pool without the requested name. -/
theorem c10_witness :
    (WorldState.localItempool
        { opts := { exclude_locations := [],
                    excluded_location_behavior := .forbid_useful,
                    missable_location_behavior := .forbid_useful },
          allExcluded := ["ARE - Memory: Saint Isshin"],
          locations := [],
          localItempool := [{ name := "Mortal Blade", category := .UNIQUE,
                              classification := .progression }],
          rng := [7, 3] }).find? (fun it => it.name == "Shelter Stone") = none
    ∧ fill_local_item
        { opts := { exclude_locations := [],
                    excluded_location_behavior := .forbid_useful,
                    missable_location_behavior := .forbid_useful },
          allExcluded := ["ARE - Memory: Saint Isshin"],
          locations := [],
          localItempool := [{ name := "Mortal Blade", category := .UNIQUE,
                              classification := .progression }],
          rng := [7, 3] } "Shelter Stone" ["Mibu Village"] none
      = { opts := { exclude_locations := [],
                    excluded_location_behavior := .forbid_useful,
                    missable_location_behavior := .forbid_useful },
          allExcluded := ["ARE - Memory: Saint Isshin"],
          locations := [],
          localItempool := [{ name := "Mortal Blade", category := .UNIQUE,
                              classification := .progression }],
          rng := [7, 3] } :=
  ⟨by decide,
   c10_fill_local_item_noop _ "Shelter Stone" ["Mibu Village"] none (by decide)⟩

/-! ## C9: determinism of the placement routines -/

/-- C9: Both `_fill_local_item` and `_create_injectable_items` are pure
functions of the options, the catalog, the world state and the per-world
random stream: the embedding exhibits no other input, so two generation
runs with the same seed (identical draw stream) and identical option values
produce identical named-item placements and identical injected-item
selections. -/
theorem c9_determinism (st₁ st₂ : WorldState) (name : String)
    (regions : List String) (cond : Option (SekiroLocationData → Bool))
    (cat₁ cat₂ : List SekiroItemData) (d₁ d₂ : Nat) (rng₁ rng₂ : List Nat)
    (hst : st₁ = st₂) (hcat : cat₁ = cat₂) (hd : d₁ = d₂) (hrng : rng₁ = rng₂) :
    fill_local_item st₁ name regions cond = fill_local_item st₂ name regions cond
    ∧ create_injectable_items cat₁ d₁ rng₁ = create_injectable_items cat₂ d₂ rng₂ := by
  subst hst hcat hd hrng
  exact ⟨rfl, rfl⟩

/-- Witness for C9 at a concrete state, catalog and stream. -/
theorem c9_witness :
    fill_local_item
        { opts := { exclude_locations := [],
                    excluded_location_behavior := .forbid_useful,
                    missable_location_behavior := .forbid_useful },
          allExcluded := [], locations := [], localItempool := [],
          rng := [2, 5] } "Mortal Blade" ["Senpou Temple Inner Sanctum"] none
      = fill_local_item
        { opts := { exclude_locations := [],
                    excluded_location_behavior := .forbid_useful,
                    missable_location_behavior := .forbid_useful },
          allExcluded := [], locations := [], localItempool := [],
          rng := [2, 5] } "Mortal Blade" ["Senpou Temple Inner Sanctum"] none
    ∧ create_injectable_items vanillaItems 3 [1, 4, 1]
      = create_injectable_items vanillaItems 3 [1, 4, 1] :=
  c9_determinism _ _ "Mortal Blade" ["Senpou Temple Inner Sanctum"] none
    _ _ 3 3 _ _ rfl rfl rfl rfl

/-! ## C2: create_region and the exclusion sets -/

/-- Counterexample to C2.  Take excluded_location_behavior = do_not_randomize,
missable_location_behavior = allow_useful, and a location that is both
excluded and missable (name "Excluded Missable", present in both
exclude_locations and all_excluded_locations).  The claim says the name is
removed from the exclusion set.  The code locks the location (treated as
fixed) and removes the name from the raw exclude_locations option set, but
the name is NOT removed from all_excluded_locations, because removal there
happens only when the missable behavior is at least the excluded behavior
(`if not (missable_location_behavior < excluded_location_behavior)`), and
allow_useful (1) < do_not_randomize (3). -/
theorem c2_counterexample :
    (create_region_step
        { exclude_locations := ["Excluded Missable"],
          excluded_location_behavior := .do_not_randomize,
          missable_location_behavior := .allow_useful }
        ["Excluded Missable"] ["Excluded Missable"]
        { name := "Excluded Missable",
          default_item_name := some "Mortal Blade",
          missable := true }).2.2 = ["Excluded Missable"]
    ∧ (create_region_step
        { exclude_locations := ["Excluded Missable"],
          excluded_location_behavior := .do_not_randomize,
          missable_location_behavior := .allow_useful }
        ["Excluded Missable"] ["Excluded Missable"]
        { name := "Excluded Missable",
          default_item_name := some "Mortal Blade",
          missable := true }).1.locked = true
    ∧ (create_region_step
        { exclude_locations := ["Excluded Missable"],
          excluded_location_behavior := .do_not_randomize,
          missable_location_behavior := .allow_useful }
        ["Excluded Missable"] ["Excluded Missable"]
        { name := "Excluded Missable",
          default_item_name := some "Mortal Blade",
          missable := true }).2.1 = [] := by
  decide

/-- C2 amended: during create_region, an unavailable location whose name is
in the configured exclude_locations set is locked with its default item (or
event marker), its name is always removed from the exclude_locations option
set, and it is removed from all_excluded_locations exactly when the missable
behavior is greater than or equal to the excluded behavior (that is, unless
the excluded behavior is strictly stricter than the missable behavior — the
precedence runs opposite to the direction the claim states, so in the
claimed scenario of excluded = do_not_randomize and missable = allow_useful
the name stays in all_excluded_locations). -/
theorem c2_amended (opts : SekiroOptions) (excluded allExcluded : List String)
    (ld : SekiroLocationData)
    (hunavail : is_location_available opts allExcluded ld = false)
    (hmem : excluded.contains ld.name = true) :
    (create_region_step opts excluded allExcluded ld).1.locked = true
    ∧ (create_region_step opts excluded allExcluded ld).1.item
        = some (eventItemFor ld)
    ∧ (create_region_step opts excluded allExcluded ld).2.1
        = excluded.erase ld.name
    ∧ (create_region_step opts excluded allExcluded ld).2.2
        = (if opts.missable_location_behavior.value
              < opts.excluded_location_behavior.value
           then allExcluded
           else allExcluded.erase ld.name) := by
  have hmem' : ld.name ∈ excluded := by simpa using hmem
  by_cases hb : opts.missable_location_behavior.value
      < opts.excluded_location_behavior.value
  all_goals simp [create_region_step, hunavail, hmem', LocationBehavior.blt, hb]

/-- Witness for C2 amended, at the scenario of the counterexample: the
location is fixed, erased from exclude_locations, and kept in
all_excluded_locations. -/
theorem c2_amended_witness :
    is_location_available
        { exclude_locations := ["Excluded Missable"],
          excluded_location_behavior := .do_not_randomize,
          missable_location_behavior := .allow_useful }
        ["Excluded Missable"]
        { name := "Excluded Missable",
          default_item_name := some "Mortal Blade",
          missable := true } = false
    ∧ (create_region_step
        { exclude_locations := ["Excluded Missable"],
          excluded_location_behavior := .do_not_randomize,
          missable_location_behavior := .allow_useful }
        ["Excluded Missable"] ["Excluded Missable"]
        { name := "Excluded Missable",
          default_item_name := some "Mortal Blade",
          missable := true }).1.locked = true
    ∧ (create_region_step
        { exclude_locations := ["Excluded Missable"],
          excluded_location_behavior := .do_not_randomize,
          missable_location_behavior := .allow_useful }
        ["Excluded Missable"] ["Excluded Missable"]
        { name := "Excluded Missable",
          default_item_name := some "Mortal Blade",
          missable := true }).2.2
      = (if (LocationBehavior.allow_useful).value
            < (LocationBehavior.do_not_randomize).value
         then ["Excluded Missable"]
         else (["Excluded Missable"] : List String).erase "Excluded Missable") := by
  refine ⟨by decide, ?_, ?_⟩
  · exact (c2_amended _ _ _ _ (by decide) (by decide)).1
  · exact (c2_amended
      { exclude_locations := ["Excluded Missable"],
        excluded_location_behavior := .do_not_randomize,
        missable_location_behavior := .allow_useful }
      ["Excluded Missable"] ["Excluded Missable"]
      { name := "Excluded Missable",
        default_item_name := some "Mortal Blade",
        missable := true } (by decide) (by decide)).2.2.2

/-! ## C8: _replace_with_filler -/

theorem tail_drop_eq (l : List Nat) (n : Nat) : l.tail.drop n = l.drop (n + 1) := by
  cases l <;> simp

theorem firstAcceptedFiller_succ (rule : ItemRule) (rng : List Nat) (n : Nat) :
    firstAcceptedFiller rule rng (n + 1)
      = (if evalRule rule (choiceD fillerItems unusedItem (rng.headD 0)) = true
         then some (0, choiceD fillerItems unusedItem (rng.headD 0))
         else (firstAcceptedFiller rule rng.tail n).map
                (fun p => (p.1 + 1, p.2))) := rfl

theorem replaceWithFillerGo_succ (n : Nat) (loc : BuiltLocation)
    (rng : List Nat) :
    replaceWithFillerGo (n + 1) loc rng
      = (if evalRule loc.itemRule (choiceD fillerItems unusedItem (rng.headD 0)) = true
         then ({ loc with
                 item := some (choiceD fillerItems unusedItem (rng.headD 0)) },
               rng.tail)
         else replaceWithFillerGo n loc rng.tail) := rfl

/-- The retry loop of `_replace_with_filler`: if no draw within the budget is
accepted, the location is returned unchanged with exactly `fuel` draws
consumed; otherwise the first accepted draw (at 0-based index i, within the
budget) is installed and i + 1 draws are consumed. -/
theorem replaceWithFillerGo_spec (fuel : Nat) (loc : BuiltLocation)
    (rng : List Nat) :
    (firstAcceptedFiller loc.itemRule rng fuel = none →
       replaceWithFillerGo fuel loc rng = (loc, rng.drop fuel))
    ∧ (∀ i c, firstAcceptedFiller loc.itemRule rng fuel = some (i, c) →
        i < fuel ∧ replaceWithFillerGo fuel loc rng
          = ({ loc with item := some c }, rng.drop (i + 1))) := by
  induction fuel generalizing rng with
  | zero =>
      refine ⟨fun _ => by simp [replaceWithFillerGo], fun i c h => ?_⟩
      simp [firstAcceptedFiller] at h
  | succ n ih =>
      rw [firstAcceptedFiller_succ, replaceWithFillerGo_succ]
      by_cases hacc :
          evalRule loc.itemRule (choiceD fillerItems unusedItem (rng.headD 0)) = true
      · rw [if_pos hacc, if_pos hacc]
        refine ⟨fun h => by simp at h, fun i c h => ?_⟩
        obtain ⟨hi, hc⟩ := Prod.mk.injEq .. ▸ (Option.some_inj.mp h)
        subst hi hc
        simp [List.drop_one]
      · rw [if_neg hacc, if_neg hacc]
        refine ⟨fun h => ?_, fun i c h => ?_⟩
        · rw [Option.map_eq_none'] at h
          rw [(ih rng.tail).1 h, tail_drop_eq]
        · rw [Option.map_eq_some'] at h
          obtain ⟨⟨j, c'⟩, hrec, hjc⟩ := h
          obtain ⟨hj, hc⟩ := Prod.mk.injEq .. ▸ hjc
          subst hc
          obtain ⟨hjn, hgo⟩ := (ih rng.tail).2 j c' hrec
          subst hj
          refine ⟨by omega, ?_⟩
          rw [hgo, tail_drop_eq]

/-- C8: `_replace_with_filler` makes at most 10 independent random filler
draws, installs the first drawn filler accepted by the location item rule
and stops (consuming i + 1 draws when the first success is draw i); if the
location is locked, or all 10 draws are rejected, the location is returned
completely unchanged and no warning or error is produced (the routine has no
diagnostic output at all). -/
theorem c8_replace_with_filler (loc : BuiltLocation) (rng : List Nat) :
    (loc.locked = true → replace_with_filler loc rng = (loc, rng))
    ∧ (loc.locked = false →
        (firstAcceptedFiller loc.itemRule rng 10 = none →
           replace_with_filler loc rng = (loc, rng.drop 10))
        ∧ (∀ i c, firstAcceptedFiller loc.itemRule rng 10 = some (i, c) →
            i < 10 ∧ replace_with_filler loc rng
              = ({ loc with item := some c }, rng.drop (i + 1)))) := by
  constructor
  · intro h
    simp [replace_with_filler, h]
  · intro h
    have hne : ¬(loc.locked = true) := by simp [h]
    unfold replace_with_filler
    rw [if_neg hne]
    exact replaceWithFillerGo_spec 10 loc rng

/-- Witness for C8: a locked location is untouched, and an unlocked location
with the default rule receives the first filler draw. -/
theorem c8_witness :
    (({ data := { name := "STIS: Mortal Blade",
                  default_item_name := some "Mortal Blade" },
        locked := true } : BuiltLocation).locked = true
      ∧ replace_with_filler
          { data := { name := "STIS: Mortal Blade",
                      default_item_name := some "Mortal Blade" },
            locked := true } [4, 4]
        = ({ data := { name := "STIS: Mortal Blade",
                       default_item_name := some "Mortal Blade" },
             locked := true }, [4, 4]))
    ∧ replace_with_filler
        { data := { name := "STIS: Mortal Blade",
                    default_item_name := some "Mortal Blade" } } [4, 4]
      = ({ data := { name := "STIS: Mortal Blade",
                     default_item_name := some "Mortal Blade" },
           item := some { name := "Gachiin\'s Sugar", category := .MISC,
                          filler := true } }, [4]) := by
  refine ⟨⟨rfl, (c8_replace_with_filler _ _).1 rfl⟩, ?_⟩
  have := ((c8_replace_with_filler
      { data := { name := "STIS: Mortal Blade",
                  default_item_name := some "Mortal Blade" } } [4, 4]).2 rfl).2
      0 { name := "Gachiin\'s Sugar", category := .MISC, filler := true }
      (by decide)
  exact this.2

/-! ## C4 and C5: _create_injectable_items -/

theorem sample_cons_succ {α : Type} (x : α) (xs : List α) (k : Nat)
    (rng : List Nat) :
    sample (x :: xs) (k + 1) rng
      = ((x :: xs).getD ((rng.headD 0) % (x :: xs).length) x
           :: (sample ((x :: xs).eraseIdx ((rng.headD 0) % (x :: xs).length)) k
                 rng.tail).1,
         (sample ((x :: xs).eraseIdx ((rng.headD 0) % (x :: xs).length)) k
            rng.tail).2) := rfl

theorem sample_length {α : Type} :
    ∀ (k : Nat) (l : List α) (rng : List Nat), k ≤ l.length →
      ((sample l k rng).1).length = k := by
  intro k
  induction k with
  | zero => intro l rng _; cases l <;> rfl
  | succ k ih =>
      intro l rng h
      cases l with
      | nil => simp at h
      | cons x xs =>
          have hi : (rng.headD 0) % (x :: xs).length < (x :: xs).length :=
            Nat.mod_lt _ (by simp)
          have hlen : ((x :: xs).eraseIdx ((rng.headD 0) % (x :: xs).length)).length
              = xs.length := by
            have := List.length_eraseIdx_add_one hi
            simpa using this
          have hrec := ih ((x :: xs).eraseIdx ((rng.headD 0) % (x :: xs).length))
            rng.tail (by rw [hlen]; simpa using h)
          rw [sample_cons_succ]
          simp only [List.length_cons] at hrec ⊢
          rw [hrec]

theorem sample_mem {α : Type} :
    ∀ (k : Nat) (l : List α) (rng : List Nat) (a : α),
      a ∈ (sample l k rng).1 → a ∈ l := by
  intro k
  induction k with
  | zero => intro l rng a ha; cases l <;> simp [sample] at ha
  | succ k ih =>
      intro l rng a ha
      cases l with
      | nil => simp [sample] at ha
      | cons x xs =>
          rw [sample_cons_succ] at ha
          rcases List.mem_cons.mp ha with h | h
          · subst h
            by_cases hi : (rng.headD 0) % (x :: xs).length < (x :: xs).length
            · rw [List.getD_eq_getElem _ _ hi]
              exact List.getElem_mem hi
            · rw [List.getD_eq_default _ _ (Nat.le_of_not_lt hi)]
              exact List.mem_cons_self x xs
          · exact List.mem_of_mem_eraseIdx (ih _ _ _ h)

theorem sample_perm {α : Type} :
    ∀ (k : Nat) (l : List α) (rng : List Nat), k = l.length →
      (sample l k rng).1.Perm l := by
  intro k
  induction k with
  | zero =>
      intro l rng h
      cases l with
      | nil => simp [sample]
      | cons x xs => simp at h
  | succ k ih =>
      intro l rng h
      cases l with
      | nil => simp at h
      | cons x xs =>
          classical
          rw [sample_cons_succ]
          have hi : (rng.headD 0) % (x :: xs).length < (x :: xs).length :=
            Nat.mod_lt _ (by simp)
          have hlen : ((x :: xs).eraseIdx ((rng.headD 0) % (x :: xs).length)).length
              = xs.length := by
            have := List.length_eraseIdx_add_one hi
            simpa using this
          have hrest := ih ((x :: xs).eraseIdx ((rng.headD 0) % (x :: xs).length))
            rng.tail (by rw [hlen]; simpa using h)
          have hpick : (x :: xs).getD ((rng.headD 0) % (x :: xs).length) x
              = (x :: xs)[(rng.headD 0) % (x :: xs).length] :=
            List.getD_eq_getElem _ _ hi
          rw [hpick]
          refine (List.Perm.cons _ hrest).trans ?_
          refine (List.Perm.cons _ (List.erase_getElem hi).symm).trans ?_
          exact (List.perm_cons_erase (List.getElem_mem hi)).symm

/-- The two filters partition the injectables. -/
theorem injectable_partition (catalog : List SekiroItemData) :
    (injectableMandatory catalog).length + (injectableOptional catalog).length
      = (allInjectable catalog).length := by
  have := List.length_eq_length_filter_add
    (l := allInjectable catalog) (fun it => it.classification == .progression)
  simpa [injectableMandatory, injectableOptional] using this.symm

/-- C4: for every deficit d, `_create_injectable_items` returns exactly
min(d, number of inject-flagged catalog items) items, obtained by first
sampling without replacement from the progression-classified (mandatory)
injectables up to the quota and then filling the remaining quota from the
non-progression (optional) injectables; when the quota covers the whole
mandatory list, every mandatory injectable is among the returned items (so a
catalog with a single mandatory injectable and d = 3 injects it, and an
injectable pool smaller than the mandatory need is not an error — the
routine is total). -/
theorem create_injectable_items_items (catalog : List SekiroItemData)
    (d : Nat) (rng : List Nat) :
    (create_injectable_items catalog d rng).items
      = (injectSelected catalog d rng).1 := by
  unfold create_injectable_items
  dsimp only
  split <;> rfl

theorem c4_create_injectable_items (catalog : List SekiroItemData) (d : Nat)
    (rng : List Nat) :
    ((create_injectable_items catalog d rng).items.length
        = min d (allInjectable catalog).length)
    ∧ (∃ ms os, (create_injectable_items catalog d rng).items = ms ++ os
        ∧ ms.length = min (injectableMandatory catalog).length
            (min d (allInjectable catalog).length)
        ∧ (∀ x ∈ ms, x ∈ injectableMandatory catalog)
        ∧ (∀ x ∈ os, x ∈ injectableOptional catalog))
    ∧ ((injectableMandatory catalog).length
          ≤ min d (allInjectable catalog).length →
        ∀ x ∈ injectableMandatory catalog,
          x ∈ (create_injectable_items catalog d rng).items) := by
  have hpart := injectable_partition catalog
  have hitems : (create_injectable_items catalog d rng).items
      = (sample (injectableMandatory catalog)
           (min (injectableMandatory catalog).length (injectQuota catalog d)) rng).1
        ++ (sample (injectableOptional catalog)
             (injectQuota catalog d - (injectableMandatory catalog).length)
             (sample (injectableMandatory catalog)
               (min (injectableMandatory catalog).length (injectQuota catalog d))
               rng).2).1 := by
    rw [create_injectable_items_items]
    rfl
  have hquota : injectQuota catalog d = min d (allInjectable catalog).length := rfl
  have hlen1 : ((sample (injectableMandatory catalog)
      (min (injectableMandatory catalog).length (injectQuota catalog d)) rng).1).length
      = min (injectableMandatory catalog).length (injectQuota catalog d) :=
    sample_length _ _ _ (Nat.min_le_left _ _)
  have hlen2 : ((sample (injectableOptional catalog)
      (injectQuota catalog d - (injectableMandatory catalog).length)
      (sample (injectableMandatory catalog)
        (min (injectableMandatory catalog).length (injectQuota catalog d))
        rng).2).1).length
      = injectQuota catalog d - (injectableMandatory catalog).length := by
    refine sample_length _ _ _ ?_
    have : injectQuota catalog d ≤ (allInjectable catalog).length := by
      rw [hquota]; exact Nat.min_le_right _ _
    omega
  refine ⟨?_, ⟨_, _, hitems, by rw [hlen1, hquota], ?_, ?_⟩, ?_⟩
  · rw [hitems, List.length_append, hlen1, hlen2, ← hquota]
    have : injectQuota catalog d ≤ (allInjectable catalog).length := by
      rw [hquota]; exact Nat.min_le_right _ _
    omega
  · intro x hx; exact sample_mem _ _ _ _ hx
  · intro x hx; exact sample_mem _ _ _ _ hx
  · intro hall x hx
    rw [hitems]
    refine List.mem_append_left _ ?_
    have hk : min (injectableMandatory catalog).length (injectQuota catalog d)
        = (injectableMandatory catalog).length := by
      rw [hquota]; exact Nat.min_eq_left hall
    rw [hk]
    exact (sample_perm _ _ rng rfl).mem_iff.mpr hx

/-- Witness for C4 at the scenario of the claim: a catalog with exactly one
mandatory injectable and one optional injectable, deficit 3. -/
theorem c4_witness :
    (injectableMandatory
        [{ name := "Key A", category := .UNIQUE,
           classification := .progression, inject := true },
         { name := "Extra B", category := .MISC, inject := true }]).length
      ≤ min 3 (allInjectable
        [{ name := "Key A", category := .UNIQUE,
           classification := .progression, inject := true },
         { name := "Extra B", category := .MISC, inject := true }]).length
    ∧ ({ name := "Key A", category := .UNIQUE,
         classification := .progression, inject := true } : SekiroItemData)
        ∈ injectableMandatory
          [{ name := "Key A", category := .UNIQUE,
             classification := .progression, inject := true },
           { name := "Extra B", category := .MISC, inject := true }]
    ∧ ({ name := "Key A", category := .UNIQUE,
         classification := .progression, inject := true } : SekiroItemData)
        ∈ (create_injectable_items
            [{ name := "Key A", category := .UNIQUE,
               classification := .progression, inject := true },
             { name := "Extra B", category := .MISC, inject := true }]
            3 [0, 0]).items :=
  ⟨by decide, by decide,
   (c4_create_injectable_items _ 3 [0, 0]).2.2 (by decide) _ (by decide)⟩

/-- C5: whenever the injection quota is smaller than the number of mandatory
(progression-classified) injectables, every mandatory injectable either
appears in the returned injection list or is pushed precollected with a
warning naming it; the routine is total, so this path never aborts
generation. -/
theorem c5_mandatory_not_dropped (catalog : List SekiroItemData) (d : Nat)
    (rng : List Nat)
    (h : min d (allInjectable catalog).length
          < (injectableMandatory catalog).length) :
    ∀ m ∈ injectableMandatory catalog,
      m ∈ (create_injectable_items catalog d rng).items
      ∨ (m.name ∈ (create_injectable_items catalog d rng).precollected
         ∧ injectWarning m.name ∈ (create_injectable_items catalog d rng).warnings) := by
  have hq : injectQuota catalog d < (injectableMandatory catalog).length := h
  have hpre : (create_injectable_items catalog d rng).precollected
      = ((injectableMandatory catalog).filter
          (fun it => !((injectSelected catalog d rng).1.contains it))).map
          (fun it => it.name) := by
    unfold create_injectable_items
    dsimp only
    rw [if_pos hq]
  have hwarn : (create_injectable_items catalog d rng).warnings
      = ((injectableMandatory catalog).filter
          (fun it => !((injectSelected catalog d rng).1.contains it))).map
          (fun it => injectWarning it.name) := by
    unfold create_injectable_items
    dsimp only
    rw [if_pos hq]
  intro m hm
  by_cases hin : m ∈ (create_injectable_items catalog d rng).items
  · exact Or.inl hin
  · refine Or.inr ?_
    rw [create_injectable_items_items] at hin
    have hleft : m ∈ (injectableMandatory catalog).filter
        (fun it => !((injectSelected catalog d rng).1.contains it)) := by
      refine List.mem_filter.mpr ⟨hm, ?_⟩
      simp [hin]
    rw [hpre, hwarn]
    exact ⟨List.mem_map_of_mem _ hleft, List.mem_map_of_mem _ hleft⟩

/-- Witness for C5: two mandatory injectables, deficit 1. -/
theorem c5_witness :
    (min 1 (allInjectable
        [{ name := "Key A", category := .UNIQUE,
           classification := .progression, inject := true },
         { name := "Key B", category := .UNIQUE,
           classification := .progression, inject := true }]).length
      < (injectableMandatory
        [{ name := "Key A", category := .UNIQUE,
           classification := .progression, inject := true },
         { name := "Key B", category := .UNIQUE,
           classification := .progression, inject := true }]).length)
    ∧ (({ name := "Key B", category := .UNIQUE,
          classification := .progression, inject := true } : SekiroItemData)
          ∈ (create_injectable_items
              [{ name := "Key A", category := .UNIQUE,
                 classification := .progression, inject := true },
               { name := "Key B", category := .UNIQUE,
                 classification := .progression, inject := true }] 1 [0]).items
       ∨ ("Key B" ∈ (create_injectable_items
              [{ name := "Key A", category := .UNIQUE,
                 classification := .progression, inject := true },
               { name := "Key B", category := .UNIQUE,
                 classification := .progression, inject := true }] 1 [0]).precollected
          ∧ injectWarning "Key B" ∈ (create_injectable_items
              [{ name := "Key A", category := .UNIQUE,
                 classification := .progression, inject := true },
               { name := "Key B", category := .UNIQUE,
                 classification := .progression, inject := true }] 1 [0]).warnings)) :=
  ⟨by decide,
   c5_mandatory_not_dropped _ 1 [0] (by decide) _ (by decide)⟩

/-! ## C6: the empty-candidates fallback of _fill_local_item -/

/-- C6: when the named item is in the local pool but no candidate location
qualifies, `_fill_local_item` does not fail: the item is removed from the
local pool, a warning is emitted, the item name is pushed precollected
(starting inventory), and a best-effort filler swap is attempted at the
first world location whose catalog default item is this item, if one exists
(`_replace_with_filler` itself leaves a locked location untouched, per
`c8_replace_with_filler`).  Options and the exclusion set are untouched. -/
theorem c6_fill_local_item_fallback (st : WorldState) (name : String)
    (regions : List String) (cond : Option (SekiroLocationData → Bool))
    (item : SekiroItemData)
    (hfind : st.localItempool.find? (fun it => it.name == name) = some item)
    (hempty : candidate_locations st regions cond item = []) :
    (fill_local_item st name regions cond).localItempool
        = st.localItempool.erase item
    ∧ (fill_local_item st name regions cond).warnings
        = st.warnings ++ [placeItemWarning name]
    ∧ (fill_local_item st name regions cond).precollected
        = st.precollected ++ [name]
    ∧ (fill_local_item st name regions cond).allExcluded = st.allExcluded
    ∧ (fill_local_item st name regions cond).opts = st.opts
    ∧ (match st.locations.find?
          (fun l => l.data.default_item_name == some item.name) with
       | none => (fill_local_item st name regions cond).locations = st.locations
           ∧ (fill_local_item st name regions cond).rng = st.rng
       | some target =>
           (fill_local_item st name regions cond).locations
             = updateFirst st.locations target.data.name
                 (fun _ => (replace_with_filler target st.rng).1)
           ∧ (fill_local_item st name regions cond).rng
             = (replace_with_filler target st.rng).2) := by
  unfold fill_local_item
  rw [hfind]
  dsimp only
  rw [hempty]
  cases hf : st.locations.find?
      (fun l => l.data.default_item_name == some item.name) with
  | none => simp [hf]
  | some target => simp [hf]

def mortalBladeItem : SekiroItemData :=
  { name := "Mortal Blade", category := .UNIQUE, classification := .progression }

/-- A world holding the Mortal Blade in its local pool, with the catalog
location of the Mortal Blade present and unlocked. -/
def fallbackWorld : WorldState :=
  { opts := { exclude_locations := [],
              excluded_location_behavior := .forbid_useful,
              missable_location_behavior := .forbid_useful },
    allExcluded := [],
    locations := [{ data := { name := "STIS: Mortal Blade",
                              default_item_name := some "Mortal Blade" },
                    item := some mortalBladeItem }],
    localItempool := [mortalBladeItem],
    rng := [2] }

/-- Witness for C6: placing the Mortal Blade with no allowed regions. -/
theorem c6_witness :
    fallbackWorld.localItempool.find? (fun it => it.name == "Mortal Blade")
        = some mortalBladeItem
    ∧ candidate_locations fallbackWorld [] none mortalBladeItem = []
    ∧ (fill_local_item fallbackWorld "Mortal Blade" [] none).precollected
        = fallbackWorld.precollected ++ ["Mortal Blade"]
    ∧ (fill_local_item fallbackWorld "Mortal Blade" [] none).warnings
        = fallbackWorld.warnings ++ [placeItemWarning "Mortal Blade"]
    ∧ (fill_local_item fallbackWorld "Mortal Blade" [] none).localItempool
        = fallbackWorld.localItempool.erase mortalBladeItem :=
  ⟨by decide, by decide,
   (c6_fill_local_item_fallback fallbackWorld "Mortal Blade" [] none
     mortalBladeItem (by decide) (by decide)).2.2.1,
   (c6_fill_local_item_fallback fallbackWorld "Mortal Blade" [] none
     mortalBladeItem (by decide) (by decide)).2.1,
   (c6_fill_local_item_fallback fallbackWorld "Mortal Blade" [] none
     mortalBladeItem (by decide) (by decide)).1⟩

/-! ## C3: the candidate set and placement of _fill_local_item -/

theorem choiceD_mem {α : Type} (l : List α) (dflt : α) (k : Nat) (h : l ≠ []) :
    choiceD l dflt k ∈ l := by
  have hlen : 0 < l.length := List.length_pos.mpr h
  have hi : k % l.length < l.length := Nat.mod_lt _ hlen
  rw [choiceD, List.getD_eq_getElem _ _ hi]
  exact List.getElem_mem hi

/-- C3: when the named item is in the local pool, the candidate location set
of `_fill_local_item` consists of exactly the multiworld locations of the
given regions that are (a) available, (b) not missable, (c) not conditional,
(d) satisfy the additional condition when one is supplied, (e) currently
unfilled, (f) not named in all_excluded_locations, and (g) accepted for this
item by the location item rule; when this set is non-empty, the location at
the index given by the next draw of the per-world random stream (modulo the
candidate count, i.e. `random.choice`) is locked with the item and the item
is removed from the local pool. -/
theorem c3_fill_local_item_candidates (st : WorldState) (name : String)
    (regions : List String) (cond : Option (SekiroLocationData → Bool))
    (item : SekiroItemData)
    (hfind : st.localItempool.find? (fun it => it.name == name) = some item) :
    (∀ loc, loc ∈ candidate_locations st regions cond item ↔
       ((∃ r ∈ regions, ∃ ld ∈ location_tables r,
           is_location_available st.opts st.allExcluded ld = true
           ∧ ld.missable = false
           ∧ ld.conditional = false
           ∧ (∀ f, cond = some f → f ld = true)
           ∧ getLocationByName st ld.name = some loc)
        ∧ loc.item = none
        ∧ loc.data.name ∉ st.allExcluded
        ∧ evalRule loc.itemRule item = true))
    ∧ (candidate_locations st regions cond item ≠ [] →
        choiceD (candidate_locations st regions cond item) dummyLocation
            (st.rng.headD 0) ∈ candidate_locations st regions cond item
        ∧ fill_local_item st name regions cond
          = { st with
              localItempool := st.localItempool.erase item,
              locations := updateFirst st.locations
                (choiceD (candidate_locations st regions cond item)
                  dummyLocation (st.rng.headD 0)).data.name
                (fun l => placeLockedItem l item),
              rng := st.rng.tail }) := by
  constructor
  · intro loc
    unfold candidate_locations
    rw [List.mem_filter]
    constructor
    · rintro ⟨hmem, hp⟩
      rw [List.mem_filterMap] at hmem
      obtain ⟨ld, hld, hlook⟩ := hmem
      rw [List.mem_flatMap] at hld
      obtain ⟨r, hr, hldf⟩ := hld
      rw [List.mem_filter] at hldf
      obtain ⟨hldmem, hq⟩ := hldf
      simp only [Bool.and_eq_true] at hq hp
      obtain ⟨⟨⟨havail, hmiss⟩, hcondl⟩, hcnd⟩ := hq
      obtain ⟨⟨hnone, hnex⟩, hrule⟩ := hp
      refine ⟨⟨r, hr, ld, hldmem, havail, by simpa using hmiss,
        by simpa using hcondl, ?_, hlook⟩, by simpa using hnone, ?_, hrule⟩
      · intro f hf
        rw [hf] at hcnd
        exact hcnd
      · intro hmem2
        have hct : st.allExcluded.contains loc.data.name = true :=
          List.elem_eq_true_of_mem hmem2
        rw [hct] at hnex
        simp at hnex
    · rintro ⟨⟨r, hr, ld, hldmem, havail, hmiss, hcondl, hcnd, hlook⟩,
        hnone, hnex, hrule⟩
      refine ⟨?_, ?_⟩
      · rw [List.mem_filterMap]
        refine ⟨ld, ?_, hlook⟩
        rw [List.mem_flatMap]
        refine ⟨r, hr, ?_⟩
        rw [List.mem_filter]
        refine ⟨hldmem, ?_⟩
        have hmatch : ∀ (c : Option (SekiroLocationData → Bool)),
            (∀ f, c = some f → f ld = true) →
            (match c with | none => true | some f => f ld) = true := by
          intro c hc
          cases c with
          | none => rfl
          | some g => exact hc g rfl
        simp only [Bool.and_eq_true]
        exact ⟨⟨⟨havail, by simp [hmiss]⟩, by simp [hcondl]⟩, hmatch cond hcnd⟩
      · simp only [Bool.and_eq_true]
        exact ⟨⟨by simpa using hnone, by simpa using hnex⟩, hrule⟩
  · intro hne
    refine ⟨choiceD_mem _ _ _ hne, ?_⟩
    unfold fill_local_item
    rw [hfind]
    dsimp only
    have hne' : ¬((candidate_locations st regions cond item).isEmpty = true) := by
      simpa [List.isEmpty_iff] using hne
    rw [if_neg hne']
    rfl

def gatehouseKeyItem : SekiroItemData :=
  { name := "Gatehouse Key", category := .UNIQUE,
    classification := .progression }

/-- A world with the three Ashina Castle catalog locations built and open,
and the Gatehouse Key in the local pool. -/
def fillWorld : WorldState :=
  { opts := { exclude_locations := [],
              excluded_location_behavior := .forbid_useful,
              missable_location_behavior := .forbid_useful },
    allExcluded := [],
    locations := [
      { data := { name := "AC: Gatehouse Key - dropped by enemy on bridge leading to Abandoned Dungeon entrance",
                  default_item_name := some "Gatehouse Key" } },
      { data := { name := "AC: Memory: Genichiro",
                  default_item_name := some "Memory: Genichiro" } },
      { data := { name := "Gun Fort Shrine Key - speak to Kuro",
                  default_item_name := some "Gun Fort Shrine Key" } }],
    localItempool := [gatehouseKeyItem],
    rng := [4] }

/-- Witness for C3: all three Ashina Castle locations qualify; the draw 4
selects index 4 mod 3 = 1 and that location is locked with the key. -/
theorem c3_witness :
    fillWorld.localItempool.find? (fun it => it.name == "Gatehouse Key")
        = some gatehouseKeyItem
    ∧ candidate_locations fillWorld ["Ashina Castle"] none gatehouseKeyItem ≠ []
    ∧ (choiceD (candidate_locations fillWorld ["Ashina Castle"] none gatehouseKeyItem)
          dummyLocation (fillWorld.rng.headD 0)
        ∈ candidate_locations fillWorld ["Ashina Castle"] none gatehouseKeyItem
      ∧ fill_local_item fillWorld "Gatehouse Key" ["Ashina Castle"] none
        = { fillWorld with
            localItempool := fillWorld.localItempool.erase gatehouseKeyItem,
            locations := updateFirst fillWorld.locations
              (choiceD (candidate_locations fillWorld ["Ashina Castle"] none
                  gatehouseKeyItem) dummyLocation (fillWorld.rng.headD 0)).data.name
              (fun l => placeLockedItem l gatehouseKeyItem),
            rng := fillWorld.rng.tail }) :=
  ⟨by decide, by decide,
   (c3_fill_local_item_candidates fillWorld "Gatehouse Key" ["Ashina Castle"]
     none gatehouseKeyItem (by decide)).2 (by decide)⟩

/-! ## C7: _add_allow_useful_location_rules -/

/-- The allow-useful set as the claim words it (reference definition for the
refinement, following the claim text rather than the code): the excluded
locations (restricted to non-missable ones when the exclusion axis is
strictly less strict than the missable axis) when the excluded behavior is
allow_useful, united with the missable locations (except those already
excluded under a strictly stricter exclusion axis) when the missable
behavior is allow_useful. -/
def specAllowUseful (st : WorldState) (nm : String) : Prop :=
  (st.opts.excluded_location_behavior = .allow_useful
    ∧ (if st.opts.excluded_location_behavior.value
          < st.opts.missable_location_behavior.value
       then ∃ l ∈ st.locations, l.data.name = nm
              ∧ nm ∈ st.allExcluded ∧ l.data.missable = false
       else nm ∈ st.allExcluded))
  ∨ (st.opts.missable_location_behavior = .allow_useful
    ∧ ∃ l ∈ st.locations, l.data.name = nm
        ∧ l.data.missable = true
        ∧ ¬(nm ∈ st.allExcluded
            ∧ st.opts.missable_location_behavior.value
                < st.opts.excluded_location_behavior.value))

theorem blt_iff (a b : LocationBehavior) : a.blt b = true ↔ a.value < b.value := by
  simp [LocationBehavior.blt]

theorem mem_map_name_filter (P : BuiltLocation → Bool)
    (locs : List BuiltLocation) (nm : String) :
    nm ∈ (locs.filter P).map (fun l => l.data.name)
      ↔ ∃ l ∈ locs, l.data.name = nm ∧ P l = true := by
  rw [List.mem_map]
  constructor
  · rintro ⟨l, hl, hnm⟩
    rw [List.mem_filter] at hl
    exact ⟨l, hl.1, hnm, hl.2⟩
  · rintro ⟨l, hl, hnm, hp⟩
    exact ⟨l, List.mem_filter.mpr ⟨hl, hp⟩, hnm⟩

/-- The code set `allow_useful_locations` agrees with the claim-worded set. -/
theorem allowUseful_mem_iff (st : WorldState) (nm : String) :
    nm ∈ allowUsefulLocations st ↔ specAllowUseful st nm := by
  unfold allowUsefulLocations specAllowUseful
  rw [List.mem_append]
  refine or_congr ?_ ?_
  · by_cases he : st.opts.excluded_location_behavior = .allow_useful
    · simp only [he, beq_self_eq_true, if_true, true_and]
      by_cases hv : (LocationBehavior.allow_useful).value
          < st.opts.missable_location_behavior.value
      · have hb : (LocationBehavior.allow_useful).blt
            st.opts.missable_location_behavior = true := (blt_iff _ _).mpr hv
        rw [if_pos hb, if_pos hv, mem_map_name_filter]
        refine exists_congr fun l => and_congr_right fun _ => ?_
        constructor
        · rintro ⟨hnm, hp⟩
          simp only [Bool.and_eq_true] at hp
          refine ⟨hnm, ?_, by simpa using hp.2⟩
          have := hp.1
          rw [hnm] at this
          simpa using this
        · rintro ⟨hnm, hin, hmiss⟩
          refine ⟨hnm, ?_⟩
          simp only [Bool.and_eq_true]
          constructor
          · rw [hnm]
            simpa using hin
          · simp [hmiss]
      · have hb : (LocationBehavior.allow_useful).blt
            st.opts.missable_location_behavior = false := by
          rw [← Bool.not_eq_true, blt_iff]
          exact hv
        rw [if_neg (by simp [hb]), if_neg hv]
    · have hb : (st.opts.excluded_location_behavior == LocationBehavior.allow_useful)
          = false := by
        simpa using he
      rw [if_neg (by simp [hb])]
      simp [he]
  · by_cases hm : st.opts.missable_location_behavior = .allow_useful
    · simp only [hm, beq_self_eq_true, if_true, true_and, mem_map_name_filter]
      refine exists_congr fun l => and_congr_right fun _ => ?_
      constructor
      · rintro ⟨hnm, hp⟩
        simp only [Bool.and_eq_true] at hp
        refine ⟨hnm, hp.1, ?_⟩
        rintro ⟨hin, hlt⟩
        have hcontains : st.allExcluded.contains l.data.name = true := by
          rw [hnm]
          simpa using hin
        have hblt : LocationBehavior.allow_useful.blt
            st.opts.excluded_location_behavior = true := by
          rw [blt_iff]
          simpa [hm] using hlt
        have := hp.2
        rw [hcontains, hblt] at this
        simp at this
      · rintro ⟨hnm, hmiss, hnot⟩
        refine ⟨hnm, ?_⟩
        simp only [Bool.and_eq_true]
        refine ⟨hmiss, ?_⟩
        by_cases hin : nm ∈ st.allExcluded
        · have hlt : ¬ (LocationBehavior.allow_useful).value
              < st.opts.excluded_location_behavior.value := fun hlt =>
            hnot ⟨hin, hlt⟩
          have hblt : LocationBehavior.allow_useful.blt
              st.opts.excluded_location_behavior = false := by
            rw [← Bool.not_eq_true, blt_iff]
            exact hlt
          simp [hblt]
        · have hcontains : st.allExcluded.contains l.data.name = false := by
            rw [hnm]
            cases hc : st.allExcluded.contains nm
            · rfl
            · exact absurd (List.elem_iff.mp hc) hin
          rw [hcontains]
          rfl
    · have hb : (st.opts.missable_location_behavior == LocationBehavior.allow_useful)
          = false := by
        simpa using hm
      rw [if_neg (by simp [hb])]
      simp [hm]

/-- Every member of the allow-useful set that names a built, non-event
location is available, so the availability guard inside `_add_item_rule`
never drops a rule for it. -/
theorem allowUseful_available (st : WorldState)
    (hdict : ∀ l ∈ st.locations, location_dictionary l.data.name = some l.data)
    (hnoevent : ∀ l ∈ st.locations, l.data.is_event = false)
    (l : BuiltLocation) (hl : l ∈ st.locations)
    (hmem : l.data.name ∈ allowUsefulLocations st) :
    is_location_available st.opts st.allExcluded l.data = true := by
  rw [allowUseful_mem_iff] at hmem
  simp only [is_location_available, Bool.and_eq_true]
  cases hmem with
  | inl h =>
      obtain ⟨he, hrest⟩ := h
      refine ⟨⟨by rw [hnoevent l hl]; rfl, ?_⟩, ?_⟩
      · rw [he]
        rfl
      · by_cases hm : st.opts.missable_location_behavior = .do_not_randomize
        · rw [he, hm] at hrest
          rw [if_pos (by decide)] at hrest
          obtain ⟨l₂, hl₂, hname, _, hmiss2⟩ := hrest
          have h1 := hdict l hl
          have h2 := hdict l₂ hl₂
          rw [hname] at h2
          have hdata : l.data = l₂.data := Option.some_inj.mp (h1.symm.trans h2)
          rw [hm, hdata, hmiss2]
          rfl
        · have hb : (st.opts.missable_location_behavior
              == LocationBehavior.do_not_randomize) = false := by simpa using hm
          rw [hb]
          rfl
  | inr h =>
      obtain ⟨hmB, l₂, hl₂, hname, hmiss2, hnot⟩ := h
      refine ⟨⟨by rw [hnoevent l hl]; rfl, ?_⟩, ?_⟩
      · by_cases he : st.opts.excluded_location_behavior = .do_not_randomize
        · have hnin : l.data.name ∉ st.allExcluded := by
            intro hin
            rw [hmB, he] at hnot
            exact hnot ⟨hin, by decide⟩
          have hc : st.allExcluded.contains l.data.name = false := by
            cases hc2 : st.allExcluded.contains l.data.name
            · rfl
            · exact absurd (List.elem_iff.mp hc2) hnin
          rw [he, hc]
          rfl
        · have hb : (st.opts.excluded_location_behavior
              == LocationBehavior.do_not_randomize) = false := by simpa using he
          rw [hb]
          rfl
      · rw [hmB]
        rfl

/-- C7: `_add_allow_useful_location_rules` computes the allow-useful set as
the claim describes it (see `specAllowUseful`), and — on a world whose built
locations agree with the location dictionary and contain no events, as
create_regions produces — attaches an item rule to exactly the members of
that set, conjoining the rule that rejects advancement (progression) items
and passes everything else (useful and filler) onto the location\'s existing
rule; locations outside the set keep their rule unchanged. -/
theorem c7_allow_useful_rules (st : WorldState)
    (hdict : ∀ l ∈ st.locations, location_dictionary l.data.name = some l.data)
    (hnoevent : ∀ l ∈ st.locations, l.data.is_event = false) :
    (∀ nm, nm ∈ allowUsefulLocations st ↔ specAllowUseful st nm)
    ∧ (add_allow_useful_location_rules st).locations
        = st.locations.map
            (addItemRuleUpdate st.opts st.allExcluded (allowUsefulLocations st))
    ∧ (∀ l ∈ st.locations,
        (l.data.name ∈ allowUsefulLocations st →
          ∀ it, evalRule (addItemRuleUpdate st.opts st.allExcluded
              (allowUsefulLocations st) l).itemRule it
            = (!it.classification.advancement && evalRule l.itemRule it))
        ∧ (l.data.name ∉ allowUsefulLocations st →
            addItemRuleUpdate st.opts st.allExcluded
              (allowUsefulLocations st) l = l)) := by
  refine ⟨fun nm => allowUseful_mem_iff st nm, rfl, fun l hl => ⟨?_, ?_⟩⟩
  · intro hmem it
    have hcontains : (allowUsefulLocations st).contains l.data.name = true :=
      List.elem_eq_true_of_mem hmem
    have havail := allowUseful_available st hdict hnoevent l hl hmem
    unfold addItemRuleUpdate
    rw [hcontains, if_pos rfl, hdict l hl]
    dsimp only
    rw [if_pos havail]
    rfl
  · intro hmem
    have hcontains : (allowUsefulLocations st).contains l.data.name = false := by
      cases hc : (allowUsefulLocations st).contains l.data.name
      · rfl
      · exact absurd (List.elem_iff.mp hc) hmem
    unfold addItemRuleUpdate
    rw [hcontains]
    rfl

/-- A world with one catalog location, excluded, under
excluded_location_behavior = allow_useful and missable_location_behavior =
forbid_useful: the location lands in the allow-useful set (the exclusion
axis is strictly less strict than the missable axis and the location is not
missable). -/
def rulesWorld : WorldState :=
  { opts := { exclude_locations := ["STIS: Mortal Blade"],
              excluded_location_behavior := .allow_useful,
              missable_location_behavior := .forbid_useful },
    allExcluded := ["STIS: Mortal Blade"],
    locations := [{ data := { name := "STIS: Mortal Blade",
                              default_item_name := some "Mortal Blade" } }],
    localItempool := [],
    rng := [] }

/-- Witness for C7: on `rulesWorld`, the excluded location is in the
allow-useful set and its updated rule rejects a progression item while
accepting a filler item. -/
theorem c7_witness :
    (∀ l ∈ rulesWorld.locations,
        location_dictionary l.data.name = some l.data)
    ∧ (∀ l ∈ rulesWorld.locations, l.data.is_event = false)
    ∧ ({ data := { name := "STIS: Mortal Blade",
                   default_item_name := some "Mortal Blade" } } :
            BuiltLocation) ∈ rulesWorld.locations
    ∧ "STIS: Mortal Blade" ∈ allowUsefulLocations rulesWorld
    ∧ evalRule (addItemRuleUpdate rulesWorld.opts rulesWorld.allExcluded
          (allowUsefulLocations rulesWorld)
          { data := { name := "STIS: Mortal Blade",
                      default_item_name := some "Mortal Blade" } }).itemRule
        { name := "Mortal Blade", category := .UNIQUE,
          classification := .progression }
      = (!({ name := "Mortal Blade", category := .UNIQUE,
             classification := .progression } :
               SekiroItemData).classification.advancement
         && evalRule ({ data := { name := "STIS: Mortal Blade",
                                  default_item_name := some "Mortal Blade" } } :
               BuiltLocation).itemRule
              { name := "Mortal Blade", category := .UNIQUE,
                classification := .progression }) :=
  ⟨by decide, by decide, by decide, by decide,
   ((c7_allow_useful_rules rulesWorld (by decide) (by decide)).2.2
       { data := { name := "STIS: Mortal Blade",
                   default_item_name := some "Mortal Blade" } }
       (by decide)).1 (by decide)
     { name := "Mortal Blade", category := .UNIQUE,
       classification := .progression }⟩

end Sekiro
